import Mathlib

/-!
Shallow embedding of `src/main.py` (claude-artifact-processor).

The program drives an agent loop: for each artifact file it repeatedly calls
a decision service (the OpenAI chat-completions endpoint) wrapped in a retry
policy, dispatches the tool calls of each assistant response against a file
store rooted at an output directory, and appends one tool-result message per
dispatched call.  A batch driver lists the artifacts sorted by their leading
numeric ordinal, requires the output directory to be empty, and checkpoints
each artifact with a git commit.

Machinery that is pure control flow is translated directly; external effects
(the OS file system, the network service, `random.uniform`) are passed in as
explicit state or parameter streams.
-/

/-! ## Retry policy (`exponential_backoff`, `retry_openai_request`) -/

/-- Exceptions that a decision-service stub may raise.  `openAI permanent msg`
models an exception that is an instance of `OpenAIError`; the `permanent` flag
records the semantic classification of the failure (`true` for a permanent
failure such as a bad request / schema mismatch — in the client library
`BadRequestError` is a subclass of `OpenAIError`).  `other msg` models an
exception that is not an instance of `OpenAIError`. -/
inductive PyError where
  | openAI (permanent : Bool) (msg : String)
  | other (msg : String)
  deriving DecidableEq, Repr

/-- The dynamic check performed by `except OpenAIError` (line 120): it looks
only at the exception class, never at the semantic classification. -/
def PyError.isOpenAIError : PyError → Bool
  | .openAI _ _ => true
  | .other _ => false

/-- Default of the `max_delay` parameter of `exponential_backoff` (line 109):
60.0 seconds. -/
def default_max_delay : ℚ := 60

/-- Lines 109-112: `delay = min(2 ** attempt + random.uniform(0, 1), max_delay)`.
The jitter drawn from `random.uniform(0, 1)` is passed in explicitly. -/
def exponential_backoff (attempt : Nat) (jitter : ℚ) (max_delay : ℚ) : ℚ :=
  min (2 ^ attempt + jitter) max_delay

/-- Observable outcome of one call to `retry_openai_request`: the value
returned or exception raised, the list of delays slept (in order), and the
number of times the wrapped function was invoked. -/
structure RetryTrace (α : Type) where
  result : Except PyError α
  delays : List ℚ
  attempts : Nat
  deriving Repr

/-- Lines 114-125, recursion on the number of loop iterations left
(`remaining = max_retries - attempt`; the python guard
`attempt == max_retries - 1` is `remaining = 1`, i.e. the inner pattern
`remaining+1` with `remaining = 0`).  The `stub` is the wrapped function,
indexed by attempt number; `jitter` is the stream of `random.uniform(0, 1)`
draws.  The fuel-0 case is unreachable from `retry_openai_request` since
`max_retries = 5`. -/
def retryAux {α : Type} (stub : Nat → Except PyError α) (jitter : Nat → ℚ) :
    Nat → Nat → RetryTrace α
  | _, 0 => ⟨Except.error (PyError.other "fell out of the retry loop"), [], 0⟩
  | attempt, remaining + 1 =>
    match stub attempt with
    | Except.ok a => ⟨Except.ok a, [], 1⟩
    | Except.error e =>
      if e.isOpenAIError then
        if remaining = 0 then
          ⟨Except.error e, [], 1⟩
        else
          let d := exponential_backoff attempt (jitter attempt) default_max_delay
          let r := retryAux stub jitter (attempt + 1) remaining
          ⟨r.result, d :: r.delays, r.attempts + 1⟩
      else
        ⟨Except.error e, [], 1⟩

/-- `max_retries = 5` (line 116). -/
def max_retries : Nat := 5

/-- Lines 114-125: `retry_openai_request` starting at attempt 0 with the full
budget. -/
def retry_openai_request {α : Type} (stub : Nat → Except PyError α)
    (jitter : Nat → ℚ) : RetryTrace α :=
  retryAux stub jitter 0 max_retries

/-- A stub that always raises a permanent `OpenAIError` (an HTTP 400 bad
request / schema mismatch, which the client library raises as
`BadRequestError`, a subclass of `OpenAIError`). -/
def badRequestStub : Nat → Except PyError Unit :=
  fun _ => Except.error (PyError.openAI true "Error code: 400 - bad request")

/-- A jitter stream that always returns 0. -/
def zeroJitter : Nat → ℚ := fun _ => 0

/-- A stub that always raises an exception that is not an `OpenAIError`. -/
def typeErrorStub : Nat → Except PyError Unit :=
  fun _ => Except.error (PyError.other "TypeError")

/-- A stub that always raises a transient (non-permanent) `OpenAIError`. -/
def alwaysTransientStub : Nat → Except PyError Unit :=
  fun i => Except.error (PyError.openAI false (toString i))

/-- C2, counterexample: a call that fails with a permanent failure
classification (a bad request, raised as an `OpenAIError` subclass) is NOT
propagated immediately: `except OpenAIError` catches it, so the wrapped
function is invoked 5 times and 4 backoff sleeps are performed. -/
theorem permanent_openai_failure_is_retried :
    (retry_openai_request badRequestStub zeroJitter).attempts = 5 ∧
    (retry_openai_request badRequestStub zeroJitter).delays.length = 4 := by
  constructor <;> rfl

/-- C2, amended: the retry policy classifies only by exception class.  A
failure that is not an `OpenAIError` instance is propagated to the caller
immediately — one attempt, no backoff sleep — while permanent `OpenAIError`
failures are retried like transient ones. -/
theorem non_openai_failure_propagates_immediately {α : Type}
    (stub : Nat → Except PyError α) (jitter : Nat → ℚ) (e : PyError)
    (h1 : stub 0 = Except.error e) (h2 : e.isOpenAIError = false) :
    retry_openai_request stub jitter = ⟨Except.error e, [], 1⟩ := by
  simp [retry_openai_request, max_retries, retryAux, h1, h2]

/-- Witness for `non_openai_failure_propagates_immediately` at a concrete
stub raising a `TypeError`. -/
theorem non_openai_failure_witness :
    retry_openai_request typeErrorStub zeroJitter
      = ⟨Except.error (PyError.other "TypeError"), [], 1⟩ :=
  non_openai_failure_propagates_immediately typeErrorStub zeroJitter
    (PyError.other "TypeError") rfl rfl

/-- C3: against a stub that always fails transiently, the wrapped call is
attempted exactly 5 times (the default budget), the failure propagated is
exactly the one raised on the final attempt (the bare `raise` on line 122),
and exactly 4 backoff delays are slept — none after the final attempt. -/
theorem retry_exhausts_budget {α : Type}
    (stub : Nat → Except PyError α) (jitter : Nat → ℚ)
    (h : ∀ i, i < 5 → ∃ m, stub i = Except.error (PyError.openAI false m)) :
    (retry_openai_request stub jitter).result = stub 4 ∧
    (retry_openai_request stub jitter).attempts = 5 ∧
    (retry_openai_request stub jitter).delays.length = 4 := by
  obtain ⟨m0, h0⟩ := h 0 (by omega)
  obtain ⟨m1, h1⟩ := h 1 (by omega)
  obtain ⟨m2, h2⟩ := h 2 (by omega)
  obtain ⟨m3, h3⟩ := h 3 (by omega)
  obtain ⟨m4, h4⟩ := h 4 (by omega)
  refine ⟨?_, ?_, ?_⟩ <;>
    simp [retry_openai_request, max_retries, retryAux, h0, h1, h2, h3, h4,
      PyError.isOpenAIError]

/-- Witness for `retry_exhausts_budget` at a concrete always-failing stub. -/
theorem retry_exhausts_budget_witness :
    (retry_openai_request alwaysTransientStub zeroJitter).result
        = alwaysTransientStub 4 ∧
    (retry_openai_request alwaysTransientStub zeroJitter).attempts = 5 ∧
    (retry_openai_request alwaysTransientStub zeroJitter).delays.length = 4 :=
  retry_exhausts_budget alwaysTransientStub zeroJitter
    (fun i _ => ⟨toString i, rfl⟩)

/-- C4: for every attempt number `i` and jitter draw `j ∈ [0, 1]`, the delay
computed by `exponential_backoff` (with the default cap used by the retry
loop) equals `min(2^i + j, 60)`; hence it is at most the cap and at least
`min(2^i, 60)`. -/
theorem backoff_delay_formula (i : Nat) (j : ℚ) (h0 : 0 ≤ j) (h1 : j ≤ 1) :
    exponential_backoff i j default_max_delay = min (2 ^ i + j) 60 ∧
    exponential_backoff i j default_max_delay ≤ 60 ∧
    min ((2 : ℚ) ^ i) 60 ≤ exponential_backoff i j default_max_delay := by
  refine ⟨rfl, min_le_right _ _, ?_⟩
  unfold exponential_backoff default_max_delay
  exact min_le_min (by linarith) le_rfl

/-- Witness for `backoff_delay_formula` at attempt 3 with jitter 1/2. -/
theorem backoff_delay_formula_witness :
    exponential_backoff 3 (1 / 2) default_max_delay = min (2 ^ 3 + 1 / 2) 60 ∧
    exponential_backoff 3 (1 / 2) default_max_delay ≤ 60 ∧
    min ((2 : ℚ) ^ 3) 60 ≤ exponential_backoff 3 (1 / 2) default_max_delay :=
  backoff_delay_formula 3 (1 / 2) (by norm_num) (by norm_num)

/-! ## Paths (`posixpath` semantics used by `os.path`) -/

/-- Models `os.path.basename`: everything after the last `/` (the whole
string when there is no `/`). -/
def basename (p : String) : String :=
  String.mk ((p.toList.reverse.takeWhile (fun c => c ≠ '/')).reverse)

/-- Models `os.path.dirname`: everything before the last `/`, with trailing
slashes stripped unless the result is all slashes; `""` when there is no `/`. -/
def dirname (p : String) : String :=
  let cs := p.toList
  let tail := cs.reverse.takeWhile (fun c => c ≠ '/')
  if tail.length = cs.length then ""
  else
    let head := cs.take (cs.length - tail.length)
    if head.all (fun c => c = '/') then String.mk head
    else String.mk ((head.reverse.dropWhile (fun c => c = '/')).reverse)

/-- Whether a path is absolute, i.e. `p.startswith('/')` as tested by
`posixpath.join`. -/
def isAbsolute (p : String) : Bool := p.toList.headD ' ' == '/'

/-- Whether a path ends with the separator, i.e. `p.endswith('/')`. -/
def endsWithSep (p : String) : Bool := p.toList.getLastD ' ' == '/'

/-- Models `os.path.join(a, b)` for two components: an absolute second
component discards the first; otherwise the components are joined with a
separator unless one is already present. -/
def os_path_join (a b : String) : String :=
  if isAbsolute b then b
  else if a = "" then b
  else if endsWithSep a then a ++ b
  else a ++ "/" ++ b

/-! ## File store -/

/-- The file-system state visible to the program: the set of directories that
exist and a map from file path to content (first binding wins, so a write
prepends). -/
structure FileSys where
  dirs : List String
  files : List (String × String)
  deriving Repr, DecidableEq

/-- The empty file system. -/
def emptyFs : FileSys := ⟨[], []⟩

/-- Whether a directory component exists: `""` is the working directory and
`"/"` is the root, which always exist. -/
def dirExists (fs : FileSys) (d : String) : Bool :=
  d == "" || d == "/" || fs.dirs.contains d

/-- Lines 24-30, `read_file_content`: returns the file's content, or a
descriptive error string when `open` raises (missing file). -/
def read_file_content (fs : FileSys) (file_path : String) : String :=
  match fs.files.lookup file_path with
  | some c => c
  | none => "Error reading file content: No such file or directory"

/-- Lines 32-40, `write_file_content`: `open(file_path, 'w')` requires the
parent directory to exist; on success the file is overwritten and the status
string is returned, on failure a descriptive error string. -/
def write_file_content (fs : FileSys) (file_path content : String) :
    FileSys × String :=
  if dirExists fs (dirname file_path) then
    (⟨fs.dirs, (file_path, content) :: fs.files⟩, "File written successfully.")
  else
    (fs, "Error writing file content: No such file or directory")

/-- The chain of ancestor directories of `d`: `d`, `dirname d`, ... down to
(but excluding) `""` or `"/"`.  Fuel-bounded by the length of `d` (each
`dirname` step removes at least the final path component). -/
def ancestorsAux : Nat → String → List String
  | 0, _ => []
  | fuel + 1, d =>
    if d = "" ∨ d = "/" then [] else d :: ancestorsAux fuel (dirname d)

/-- All ancestor directories of `d`, `d` included. -/
def ancestors (d : String) : List String := ancestorsAux (d.length + 1) d

/-- Models `os.makedirs(d, exist_ok=True)` (line 221): creates `d` and every
missing ancestor.  (Python raises `FileNotFoundError` when `d = ""`; the
store-level theorems therefore assume a nonempty directory component, which
holds for every path formed under a nonempty output root.) -/
def makedirs (fs : FileSys) (d : String) : FileSys :=
  ⟨ancestors d ++ fs.dirs, fs.files⟩

/-- The File Store write as dispatched by the agent loop (lines 220-223):
`os.makedirs(os.path.dirname(full_path), exist_ok=True)` followed by
`write_file_content(full_path, content)`. -/
def store_write (fs : FileSys) (full_path content : String) :
    FileSys × String :=
  write_file_content (makedirs fs (dirname full_path)) full_path content

/-- A directory that is neither `""` nor `"/"` is the head of its own
ancestor chain. -/
theorem self_mem_ancestors (d : String) (h1 : d ≠ "") (h2 : d ≠ "/") :
    d ∈ ancestors d := by
  unfold ancestors ancestorsAux
  simp [h1, h2]

/-- C6: a File Store write followed immediately by a read of the same path
returns exactly the content written, the write reports success, and every
ancestor directory of the path exists afterwards — even when none of them
existed before.  (A path with no directory component is excluded: it has no
ancestor directories, and `os.makedirs("")` raises; every path dispatched
under a nonempty output root has one.) -/
theorem write_read_roundtrip (fs : FileSys) (p c : String)
    (h : dirname p ≠ "") :
    read_file_content (store_write fs p c).1 p = c ∧
    (store_write fs p c).2 = "File written successfully." ∧
    ∀ a ∈ ancestors (dirname p), a ∈ (store_write fs p c).1.dirs := by
  have hex : dirExists ⟨ancestors (dirname p) ++ fs.dirs, fs.files⟩
      (dirname p) = true := by
    by_cases hr : dirname p = "/"
    · simp [dirExists, hr]
    · have hm := self_mem_ancestors (dirname p) h hr
      simp [dirExists, hm]
  refine ⟨?_, ?_, ?_⟩
  · simp [store_write, write_file_content, makedirs, hex, read_file_content]
  · simp [store_write, write_file_content, makedirs, hex]
  · intro a ha
    simp [store_write, write_file_content, makedirs, hex]
    exact Or.inl ha

/-- Witness for `write_read_roundtrip` at a concrete path two levels below
an initially empty file system. -/
theorem write_read_roundtrip_witness :
    dirname "out/a/b.txt" ≠ "" ∧
    read_file_content (store_write emptyFs "out/a/b.txt" "hello").1 "out/a/b.txt"
      = "hello" :=
  ⟨by decide, (write_read_roundtrip emptyFs "out/a/b.txt" "hello" (by decide)).1⟩

/-! ## Tool calls and the transcript -/

/-- One tool call of an assistant response.  The `arguments` JSON object is
modelled pre-parsed: the loop reads `function_args["file_path"]` for both
operations and `function_args["content"]` for writes only. -/
structure ToolCall where
  id : String
  name : String
  file_path : String
  content : String
  deriving Repr, DecidableEq

/-- A message of the conversation transcript.  The loop only ever inspects an
assistant message's tool calls, so the assistant constructor carries those. -/
inductive Msg where
  | system (content : String)
  | user (content : String)
  | assistant (tool_calls : List ToolCall)
  | tool (tool_call_id : String) (name : String) (content : String)
  deriving Repr, DecidableEq

/-- The correlation identifier of an operation-result message, `none` for
every other kind of message. -/
def Msg.toolCallId : Msg → Option String
  | .tool i _ _ => some i
  | _ => none

/-- A file-store primitive invoked while dispatching a turn. -/
inductive FsOp where
  | read (path : String)
  | write (path : String) (content : String)
  deriving Repr, DecidableEq

/-- What dispatching produces: the tool-result messages appended to the
transcript, the file-store primitives invoked, and the new file system. -/
structure DispatchOut where
  msgs : List Msg
  ops : List FsOp
  fs : FileSys
  deriving Repr, DecidableEq

/-- Lines 206-224, the body of `for tool_call in assistant_message.tool_calls`:
a `read_file_content` call whose `file_path` equals the artifact's basename is
answered from the in-memory artifact content with no file-store access; any
other read goes to `os.path.join(output_directory, file_path)`; a
`write_file_content` call makes the parent directories and writes at the
joined path.  Any other operation name matches no branch: nothing is appended
and nothing is invoked. -/
def dispatchToolCall (artifact_path artifact_content output_directory : String)
    (fs : FileSys) (tc : ToolCall) : DispatchOut :=
  if tc.name = "read_file_content" then
    if tc.file_path = basename artifact_path then
      ⟨[Msg.tool tc.id tc.name artifact_content], [], fs⟩
    else
      let full_path := os_path_join output_directory tc.file_path
      ⟨[Msg.tool tc.id tc.name (read_file_content fs full_path)],
        [FsOp.read full_path], fs⟩
  else if tc.name = "write_file_content" then
    let full_path := os_path_join output_directory tc.file_path
    let r := store_write fs full_path tc.content
    ⟨[Msg.tool tc.id tc.name r.2], [FsOp.write full_path tc.content], r.1⟩
  else
    ⟨[], [], fs⟩

/-- Lines 205-224: dispatch every tool call of one assistant turn, in order,
threading the file system and concatenating appended messages and invoked
primitives. -/
def dispatchTurn (artifact_path artifact_content output_directory : String) :
    FileSys → List ToolCall → DispatchOut
  | fs, [] => ⟨[], [], fs⟩
  | fs, tc :: rest =>
    let r := dispatchToolCall artifact_path artifact_content output_directory fs tc
    let r2 := dispatchTurn artifact_path artifact_content output_directory r.fs rest
    ⟨r.msgs ++ r2.msgs, r.ops ++ r2.ops, r2.fs⟩

/-- Whether an operation name is bound in the capability catalog, i.e. matches
one of the two dispatch branches. -/
def knownTool (tc : ToolCall) : Bool :=
  tc.name == "read_file_content" || tc.name == "write_file_content"

/-- Dispatching one tool call appends exactly one tool message carrying the
call's identifier when the operation name is bound, and no message at all
otherwise. -/
theorem dispatchToolCall_msgs (ap ac od : String) (fs : FileSys)
    (tc : ToolCall) :
    ∃ c, (dispatchToolCall ap ac od fs tc).msgs
      = if knownTool tc then [Msg.tool tc.id tc.name c] else [] := by
  by_cases h1 : tc.name = "read_file_content"
  · by_cases h2 : tc.file_path = basename ap
    · exact ⟨ac, by simp [dispatchToolCall, knownTool, h1, h2]⟩
    · exact ⟨read_file_content fs (os_path_join od tc.file_path),
        by simp [dispatchToolCall, knownTool, h1, h2]⟩
  · by_cases h3 : tc.name = "write_file_content"
    · exact ⟨(store_write fs (os_path_join od tc.file_path) tc.content).2,
        by simp [dispatchToolCall, knownTool, h1, h3]⟩
    · exact ⟨"", by simp [dispatchToolCall, knownTool, h1, h3]⟩

/-- C1, amended: within one assistant turn, every Operation Request whose
name is `read_file_content` or `write_file_content` receives exactly one
operation-result message carrying its correlation identifier, in request
order, before the loop proceeds; a request with any other operation name
receives none. -/
theorem one_result_per_known_request (ap ac od : String) (fs : FileSys)
    (tcs : List ToolCall) :
    (dispatchTurn ap ac od fs tcs).msgs.filterMap Msg.toolCallId
      = (tcs.filter knownTool).map ToolCall.id ∧
    (dispatchTurn ap ac od fs tcs).msgs.length
      = (tcs.filter knownTool).length := by
  induction tcs generalizing fs with
  | nil => simp [dispatchTurn]
  | cons tc rest ih =>
    obtain ⟨c, hc⟩ := dispatchToolCall_msgs ap ac od fs tc
    have h1 := (ih (dispatchToolCall ap ac od fs tc).fs).1
    have h2 := (ih (dispatchToolCall ap ac od fs tc).fs).2
    by_cases hk : knownTool tc
    · simp [dispatchTurn, hc, hk, Msg.toolCallId, h1, h2, List.filter_cons]
    · simp [dispatchTurn, hc, hk, h1, h2, List.filter_cons]

/-! ## Agent loop (`process_artifact`) -/

/-- The fixed operating rules of the system message (lines 132-140; the
natural-language text is opaque to the control flow and abridged here). -/
def systemRules : String :=
  "You are an AI agent tasked with analyzing artifact files and creating or updating corresponding output files."

/-- The worked example of the first user message (lines 141-181; opaque to
the control flow and abridged here). -/
def workedExample : String :=
  "In an artifact file with the name 2_Chrome_Plugin_Claude_Artifact_Downloader.js ..."

/-- Lines 131-188: the transcript seeded before the first service call — one
system-instruction message and two user messages, the last carrying the
artifact's basename and content. -/
def initMessages (artifact_path artifact_content : String) : List Msg :=
  [Msg.system systemRules,
   Msg.user workedExample,
   Msg.user ("Analyze this and determine what files need to be created or updated as required. Here is the content of an artifact file with the name "
     ++ basename artifact_path ++ ": " ++ artifact_content)]

/-- The state carried around the `while True:` loop: the transcript, the
file system, and the number of service calls made so far. -/
structure LoopState where
  messages : List Msg
  fs : FileSys
  calls : Nat
  deriving Repr, DecidableEq

/-- Lines 190-228, the `while True:` loop.  The decision service is a stream
`service` giving the tool calls of the assistant response to the n-th call
(the loop inspects nothing else of the response).  Each iteration appends the
assistant message unconditionally; an empty tool-call list breaks out of the
loop, otherwise every call of the turn is dispatched and its results appended
before the next service call.  The source loop has no bound, so the model
takes fuel: `none` means the source loop is still running after `fuel`
service calls. -/
def agentLoop (artifact_path artifact_content output_directory : String)
    (service : Nat → List ToolCall) : LoopState → Nat → Option LoopState
  | _, 0 => none
  | st, fuel + 1 =>
    let tcs := service st.calls
    let st1 : LoopState := ⟨st.messages ++ [Msg.assistant tcs], st.fs, st.calls + 1⟩
    if tcs.isEmpty then
      some st1
    else
      let d := dispatchTurn artifact_path artifact_content output_directory st1.fs tcs
      agentLoop artifact_path artifact_content output_directory service
        ⟨st1.messages ++ d.msgs, d.fs, st1.calls⟩ fuel

/-- Lines 127-230, `process_artifact`: seed the transcript and run the loop
on an empty output file system.  (`artifact_content` is the text read from
the input directory at line 129; the input store is separate from the output
store and passed in directly.) -/
def process_artifact (artifact_path artifact_content output_directory : String)
    (service : Nat → List ToolCall) (fuel : Nat) : Option LoopState :=
  agentLoop artifact_path artifact_content output_directory service
    ⟨initMessages artifact_path artifact_content, emptyFs, 0⟩ fuel

/-- If some response within the fuel bound carries no tool calls, the loop
terminates. -/
theorem agentLoop_terminates (ap ac od : String)
    (service : Nat → List ToolCall) :
    ∀ fuel st, (∃ j, j < fuel ∧ (service (st.calls + j)).isEmpty = true) →
      (agentLoop ap ac od service st fuel).isSome = true := by
  intro fuel
  induction fuel with
  | zero =>
    rintro st ⟨j, hj, _⟩
    omega
  | succ n ih =>
    rintro st ⟨j, hj, hempty⟩
    unfold agentLoop
    by_cases h : (service st.calls).isEmpty
    · simp [h]
    · have hj0 : j ≠ 0 := by
        rintro rfl
        rw [Nat.add_zero] at hempty
        exact h hempty
      simp only [h, Bool.false_eq_true, if_false]
      exact ih _ ⟨j - 1, by omega, by
        have : st.calls + 1 + (j - 1) = st.calls + j := by omega
        rw [this]; exact hempty⟩

/-- If every response carries tool calls, no amount of fuel makes the loop
stop. -/
theorem agentLoop_diverges (ap ac od : String)
    (service : Nat → List ToolCall)
    (h : ∀ n, (service n).isEmpty = false) :
    ∀ fuel st, agentLoop ap ac od service st fuel = none := by
  intro fuel
  induction fuel with
  | zero => intro st; rfl
  | succ n ih =>
    intro st
    unfold agentLoop
    simp only [h st.calls, Bool.false_eq_true, if_false]
    exact ih _

/-- C9: the agent loop reaches DONE exactly when an assistant response with
no tool calls is received — if the k-th response is empty of tool calls the
loop returns within any fuel above k, and if every response carries tool
calls the loop runs forever (the design has no maximum turn count). -/
theorem agent_loop_termination (ap ac od : String)
    (service : Nat → List ToolCall) :
    (∀ k fuel, (service k).isEmpty = true → k < fuel →
        (process_artifact ap ac od service fuel).isSome = true) ∧
    ((∀ n, (service n).isEmpty = false) →
        ∀ fuel, process_artifact ap ac od service fuel = none) := by
  constructor
  · intro k fuel hk hlt
    exact agentLoop_terminates ap ac od service fuel _
      ⟨k, hlt, by simpa using hk⟩
  · intro h fuel
    exact agentLoop_diverges ap ac od service h fuel _

/-- A decision-service stub that requests one read on the first call and
nothing afterwards. -/
def stopAfterOne : Nat → List ToolCall :=
  fun n => if n = 0 then [⟨"call_1", "read_file_content", "1_a.txt", ""⟩] else []

/-- A decision-service stub that requests a read on every call. -/
def neverStops : Nat → List ToolCall :=
  fun _ => [⟨"call_1", "read_file_content", "x.txt", ""⟩]

/-- Witness for `agent_loop_termination` at concrete stubs: the stub that
stops after one turn terminates within fuel 2, the stub that never stops
yields no result at fuel 3. -/
theorem agent_loop_termination_witness :
    (process_artifact "in/1_a.txt" "data" "out" stopAfterOne 2).isSome = true ∧
    process_artifact "in/1_a.txt" "data" "out" neverStops 3 = none :=
  ⟨(agent_loop_termination "in/1_a.txt" "data" "out" stopAfterOne).1 1 2 rfl
      (by omega),
    (agent_loop_termination "in/1_a.txt" "data" "out" neverStops).2
      (fun _ => rfl) 3⟩

/-- A decision-service stub whose first response carries one Operation
Request with an operation name bound to no capability, and whose second
response carries none. -/
def unknownOpService : Nat → List ToolCall :=
  fun n => if n = 0 then [⟨"call_7", "list_directory_files", ".", ""⟩] else []

/-- C1, counterexample: the first assistant turn carries exactly one
Operation Request, yet the finished transcript contains zero operation-result
messages — a request whose operation name is neither `read_file_content` nor
`write_file_content` matches no dispatch branch, so no result turn is
appended before the next service call. -/
theorem unknown_op_request_gets_no_result :
    (unknownOpService 0).length = 1 ∧
    (process_artifact "in/1_a.txt" "data" "out" unknownOpService 2).map
        (fun st => (st.messages.filterMap Msg.toolCallId).length) = some 0 := by
  constructor
  · rfl
  · rfl

/-- C5 (lines 210-218): a read Operation Request whose `file_path` equals the
artifact's basename is answered with the in-memory artifact content and the
file store is not touched (no primitive invoked); any other `file_path` is
read from the path joined under the output directory, with exactly that read
invoked. -/
theorem read_request_special_case (ap ac od fp i c : String) (fs : FileSys) :
    (fp = basename ap →
      dispatchToolCall ap ac od fs ⟨i, "read_file_content", fp, c⟩
        = ⟨[Msg.tool i "read_file_content" ac], [], fs⟩) ∧
    (fp ≠ basename ap →
      dispatchToolCall ap ac od fs ⟨i, "read_file_content", fp, c⟩
        = ⟨[Msg.tool i "read_file_content"
              (read_file_content fs (os_path_join od fp))],
           [FsOp.read (os_path_join od fp)], fs⟩) := by
  constructor <;> intro h <;> simp [dispatchToolCall, h]

/-- Witness for `read_request_special_case`: reading `1_a.txt` (the basename
of `in/1_a.txt`) yields the artifact content with no file-store access, while
reading `b.txt` goes to `out/b.txt`. -/
theorem read_request_special_case_witness :
    dispatchToolCall "in/1_a.txt" "data" "out" emptyFs
        ⟨"c1", "read_file_content", "1_a.txt", ""⟩
      = ⟨[Msg.tool "c1" "read_file_content" "data"], [], emptyFs⟩ ∧
    dispatchToolCall "in/1_a.txt" "data" "out" emptyFs
        ⟨"c2", "read_file_content", "b.txt", ""⟩
      = ⟨[Msg.tool "c2" "read_file_content"
            (read_file_content emptyFs (os_path_join "out" "b.txt"))],
         [FsOp.read (os_path_join "out" "b.txt")], emptyFs⟩ :=
  ⟨(read_request_special_case "in/1_a.txt" "data" "out" "1_a.txt" "c1" ""
      emptyFs).1 (by decide),
   (read_request_special_case "in/1_a.txt" "data" "out" "b.txt" "c2" ""
      emptyFs).2 (by decide)⟩

/-- C10: the path a dispatched operation targets is
`os.path.join(output_directory, file_path)` — shown here for both the write
branch and the non-special-cased read branch — and that join returns an
absolute `file_path` verbatim (escaping the output tree) while a relative
`file_path` lands under the output directory root. -/
theorem dispatch_path_confinement (ap ac od fp i c : String) (fs : FileSys) :
    (dispatchToolCall ap ac od fs ⟨i, "write_file_content", fp, c⟩).ops
      = [FsOp.write (os_path_join od fp) c] ∧
    (fp ≠ basename ap →
      (dispatchToolCall ap ac od fs ⟨i, "read_file_content", fp, c⟩).ops
        = [FsOp.read (os_path_join od fp)]) ∧
    (isAbsolute fp = true → os_path_join od fp = fp) ∧
    (isAbsolute fp = false → od ≠ "" →
      ∃ rest, os_path_join od fp = od ++ rest) := by
  refine ⟨by simp [dispatchToolCall], fun h => by simp [dispatchToolCall, h],
    fun h => by simp [os_path_join, h], fun h hod => ?_⟩
  by_cases he : endsWithSep od
  · exact ⟨fp, by simp [os_path_join, h, hod, he]⟩
  · exact ⟨"/" ++ fp, by simp [os_path_join, h, hod, he, String.append_assoc]⟩

/-- Witness for `dispatch_path_confinement`: with output root `out`, the
write target of `a.txt` is `out/a.txt`, while the absolute argument
`/etc/passwd` is targeted verbatim outside the output tree. -/
theorem dispatch_path_confinement_witness :
    (dispatchToolCall "in/1_a.txt" "data" "out" emptyFs
        ⟨"c1", "write_file_content", "a.txt", "x"⟩).ops
      = [FsOp.write (os_path_join "out" "a.txt") "x"] ∧
    os_path_join "out" "/etc/passwd" = "/etc/passwd" ∧
    ∃ rest, os_path_join "out" "a.txt" = "out" ++ rest :=
  ⟨(dispatch_path_confinement "in/1_a.txt" "data" "out" "a.txt" "c1" "x"
      emptyFs).1,
   (dispatch_path_confinement "in/1_a.txt" "data" "out" "/etc/passwd" "c1" ""
      emptyFs).2.2.1 (by decide),
   (dispatch_path_confinement "in/1_a.txt" "data" "out" "a.txt" "c1" ""
      emptyFs).2.2.2 (by decide) (by decide)⟩

/-! ## Batch driver (`list_artifact_files`, `ensure_empty_directory`, `main`) -/

/-- Models `int(x.split('_')[0])` for a digit-string ordinal: the text before
the first `_` (the whole name when there is none), parsed as a natural number;
`none` when it is not a numeral, in which case `int` raises `ValueError`. -/
def leadingOrdinal? (s : String) : Option Nat :=
  let cs := s.toList.takeWhile (fun c => c != '_')
  if cs.isEmpty || !cs.all Char.isDigit then none
  else some (cs.foldl (fun n c => 10 * n + (c.toNat - 48)) 0)

/-- The sort key used on line 20, defaulted for the total `mergeSort` call
(the default is irrelevant on listings where every name parses). -/
def ordKey (s : String) : Nat := (leadingOrdinal? s).getD 0

/-- Lines 16-22, `list_artifact_files`: the directory listing sorted by the
integer value of the text before the first `_` (Python's `sorted` is a stable
merge sort on the key); when any name fails to parse, the exception is caught
and a one-element error listing is returned. -/
def list_artifact_files (files : List String) : List String :=
  if files.all (fun f => (leadingOrdinal? f).isSome) then
    files.mergeSort (fun a b => decide (ordKey a ≤ ordKey b))
  else
    ["Error listing artifact files: invalid literal for int"]

/-- Lines 232-235, `ensure_empty_directory`: raises when the output directory
exists and its listing is nonempty. -/
def ensure_empty_directory (dir_exists : Bool) (listing : List String) :
    Except String Unit :=
  if dir_exists && !listing.isEmpty then
    Except.error "Output directory is not empty. Please provide an empty directory."
  else
    Except.ok ()

/-- An externally observable step of the batch run. -/
inductive BatchEvent where
  | gitInit
  | runAgentLoop (artifact : String)
  | commit (artifact : String)
  deriving Repr, DecidableEq

/-- Lines 276-292, the per-artifact loop of `main`: run the agent loop, then
checkpoint; `outcome f` abstracts whether processing artifact `f` (the agent
loop together with its commit) succeeded or raised.  On a failure the batch
stops unless `--ignore-failed` was given. -/
def runArtifacts (outcome : String → Except String Unit) (ignore_failed : Bool) :
    List String → List BatchEvent
  | [] => []
  | f :: rest =>
    match outcome f with
    | Except.ok _ =>
      BatchEvent.runAgentLoop f :: BatchEvent.commit f ::
        runArtifacts outcome ignore_failed rest
    | Except.error _ =>
      if ignore_failed then
        BatchEvent.runAgentLoop f :: runArtifacts outcome ignore_failed rest
      else
        [BatchEvent.runAgentLoop f]

/-- Lines 255-292, `main` after argument parsing: check the output-directory
precondition, then create the directory, run `git init`, and process the
sorted artifact listing.  Returns the batch outcome together with the ordered
trace of externally observable events (empty when the precondition fails,
since the exception propagates before anything else runs). -/
def mainRun (out_exists : Bool) (out_listing : List String)
    (input_files : List String) (outcome : String → Except String Unit)
    (ignore_failed : Bool) : Except String Unit × List BatchEvent :=
  match ensure_empty_directory out_exists out_listing with
  | Except.error e => (Except.error e, [])
  | Except.ok _ =>
    (Except.ok (),
      BatchEvent.gitInit ::
        runArtifacts outcome ignore_failed (list_artifact_files input_files))

/-- C7: when the output directory exists and is non-empty at batch start, the
run fails with the non-empty-directory error and the event trace is empty —
no git init, no agent-loop invocation, no commit, hence no write occurs. -/
theorem nonempty_output_fails_first (out_listing input_files : List String)
    (outcome : String → Except String Unit) (ig : Bool)
    (h : out_listing ≠ []) :
    (mainRun true out_listing input_files outcome ig).1
      = Except.error
          "Output directory is not empty. Please provide an empty directory." ∧
    (mainRun true out_listing input_files outcome ig).2 = [] := by
  have he : out_listing.isEmpty = false := by
    cases out_listing with
    | nil => exact absurd rfl h
    | cons a l => rfl
  constructor <;> simp [mainRun, ensure_empty_directory, he]

/-- Witness for `nonempty_output_fails_first`: one stale file in the output
root aborts a batch of one artifact before anything happens. -/
theorem nonempty_output_fails_first_witness :
    (mainRun true ["stale.txt"] ["1_a.txt"] (fun _ => Except.ok ()) false).1
      = Except.error
          "Output directory is not empty. Please provide an empty directory." ∧
    (mainRun true ["stale.txt"] ["1_a.txt"] (fun _ => Except.ok ()) false).2
      = [] :=
  nonempty_output_fails_first ["stale.txt"] ["1_a.txt"] (fun _ => Except.ok ())
    false (by decide)

/-- C8: on a listing whose names all carry a numeric ordinal before the first
`_`, the processed order is a permutation of the input listing that is
ascending in the integer value of that ordinal — integer order, not
lexicographic, as `["10_b", "2_a"]` shows — and the batch driver runs the
artifacts exactly in that sorted order. -/
theorem artifacts_processed_in_ordinal_order (files : List String)
    (h : ∀ f ∈ files, (leadingOrdinal? f).isSome = true) :
    (list_artifact_files files).Perm files ∧
    (list_artifact_files files).Pairwise (fun a b => ordKey a ≤ ordKey b) ∧
    list_artifact_files ["10_b", "2_a"] = ["2_a", "10_b"] ∧
    ∀ (outcome : String → Except String Unit) (ig : Bool),
      (mainRun false [] files outcome ig).2
        = BatchEvent.gitInit ::
            runArtifacts outcome ig (list_artifact_files files) := by
  have hall : files.all (fun f => (leadingOrdinal? f).isSome) = true := by
    rw [List.all_eq_true]
    exact h
  refine ⟨?_, ?_, ?_, fun outcome ig => rfl⟩
  · rw [list_artifact_files, if_pos hall]
    exact List.mergeSort_perm files _
  · rw [list_artifact_files, if_pos hall]
    refine List.Pairwise.imp ?_ (List.sorted_mergeSort ?_ ?_ files)
    · intro a b hab
      simpa only [decide_eq_true_eq] using hab
    · intro a b c h1 h2
      simp only [decide_eq_true_eq] at h1 h2 ⊢
      omega
    · intro a b
      simp only [Bool.or_eq_true, decide_eq_true_eq]
      omega
  · have hc : (["10_b", "2_a"] : List String).all
        (fun f => (leadingOrdinal? f).isSome) = true := by decide
    rw [list_artifact_files, if_pos hc, List.mergeSort]
    simp [List.splitInTwo, List.merge]
    decide

/-- Witness for `artifacts_processed_in_ordinal_order` on the two-element
listing where integer and lexicographic order differ. -/
theorem artifacts_processed_in_ordinal_order_witness :
    (list_artifact_files ["10_b", "2_a"]).Perm ["10_b", "2_a"] ∧
    (list_artifact_files ["10_b", "2_a"]).Pairwise
      (fun a b => ordKey a ≤ ordKey b) :=
  ⟨(artifacts_processed_in_ordinal_order ["10_b", "2_a"] (by decide)).1,
   (artifacts_processed_in_ordinal_order ["10_b", "2_a"] (by decide)).2.1⟩
